import Mathlib

/-!
Shallow embedding of the session lifecycle and image relay of
WebFileTransfer's `server.js`.

The embedding models the server's in-memory session store (`sessions`),
the on-disk upload directory (as the set of file paths that currently
exist), and the five core operations:

* `createSession`    — POST /api/session/request handler (server.js 156-205)
* `connectSender`    — POST /api/session/:sessionId/connect (server.js 208-242)
* `pollStatus`       — POST /api/session/:sessionId/status (server.js 245-321)
* `uploadImage`      — POST /upload (server.js 370-449)
* `fetchImage`       — GET /image/:sessionId/:imageId (server.js 453-531)
* `cleanupSession`   — server.js 62-94
* `runExpiredSessionCleanup` — server.js 97-112

Modelling conventions:
* Timestamps (`Date.now()`) are natural numbers passed in explicitly as
  `now`; each operation is an atomic step on the server state.
* The deferred post-send cleanup of `fetchImage` (`process.nextTick`)
  and the un-awaited `cleanupSession` calls are modelled as completing
  before the next operation (the sequential interleaving).
* Fresh identifiers (`uuidv4`) are passed in as arguments.
* Transport-level concerns are omitted: QR payloads (`qrUrl`, `qrData`),
  logging, the 400 response for a missing `client` query parameter,
  multipart parsing and file-size limits, and admin routes.
* JS object maps are association lists; object field mutation is
  modelled as replacing the entry in the store.
-/

/-- Session status strings used by server.js. -/
inductive SessionStatus where
  | waiting_for_sender
  | connected
  | sender_disconnected
  | receiver_disconnected
deriving DecidableEq, Repr

/-- A session record, as stored in the `sessions` object (server.js 37,
179-189). `qrUrl`/`qrData` are omitted (no operation reads them). -/
structure Session where
  status : SessionStatus
  receiverLastSeen : Nat
  senderLastSeen : Nat
  expiresAt : Nat
  createdAt : Nat
  imagePaths : List (String × String)
  pendingImageIds : List String
deriving DecidableEq, Repr

/-- The whole mutable server state: the `sessions` map plus the set of
files currently present in the upload directory. -/
structure ServerState where
  sessions : List (String × Session)
  files : List String
deriving DecidableEq, Repr

/-- Configuration values (server.js 17-18); `sessionTimeoutMs` defaults
to 120000 and `clientTimeoutMs` to 3000. -/
structure Config where
  sessionTimeoutMs : Nat
  clientTimeoutMs : Nat
deriving DecidableEq, Repr

/-- The default configuration of server.js. -/
def defaultConfig : Config :=
  { sessionTimeoutMs := 120000, clientTimeoutMs := 3000 }

/-- Lookup in a JS object map (`sessions[sessionId]`). -/
def mapGet {α β : Type} [DecidableEq α] : List (α × β) → α → Option β
  | [], _ => none
  | (k1, v) :: rest, k => if k1 = k then some v else mapGet rest k

/-- Assignment in a JS object map (`sessions[sessionId] = v`): replaces
the existing entry or appends a new one. -/
def mapSet {α β : Type} [DecidableEq α] : List (α × β) → α → β → List (α × β)
  | [], k, v => [(k, v)]
  | (k1, v1) :: rest, k, v =>
      if k1 = k then (k, v) :: rest else (k1, v1) :: mapSet rest k v

/-- Deletion from a JS object map (`delete sessions[sessionId]`). -/
def mapDel {α β : Type} [DecidableEq α] (m : List (α × β)) (k : α) : List (α × β) :=
  m.filter (fun kv => decide (kv.1 ≠ k))

/-- `Object.values(m)`. -/
def mapValues {α β : Type} (m : List (α × β)) : List β :=
  m.map Prod.snd

/-- `fs.unlink` of every path in `paths` starting from the file set
`files`; tolerates paths that are already absent. -/
def unlinkAll (files paths : List String) : List String :=
  paths.foldl (fun fs p => fs.filter (fun q => decide (q ≠ p))) files

/-- `calculateExpiresAt()` (server.js 57-59). -/
def calculateExpiresAt (cfg : Config) (now : Nat) : Nat :=
  now + cfg.sessionTimeoutMs

/-- `cleanupSession(sessionId, reason)` (server.js 62-94), run to
completion: removes the session record from memory and then unlinks
every file in its `imagePaths`, tolerating files already gone. -/
def cleanupSession (st : ServerState) (sessionId : String) : ServerState :=
  match mapGet st.sessions sessionId with
  | none => st
  | some session =>
      { sessions := mapDel st.sessions sessionId
        files := unlinkAll st.files (mapValues session.imagePaths) }

/-- Intermediate states of the file-unlink loop of `cleanupSession`
(server.js 79-90), one state per `fs.unlink`. -/
def unlinkStates (st : ServerState) : List String → List ServerState
  | [] => []
  | p :: rest =>
      let st1 : ServerState :=
        { st with files := st.files.filter (fun q => decide (q ≠ p)) }
      st1 :: unlinkStates st1 rest

/-- The observable intermediate states of `cleanupSession`: the record
is deleted from memory first (server.js 71-72, "Remove session object
*before* deleting files"), then the files are unlinked one at a time. -/
def cleanupTrace (st : ServerState) (sessionId : String) : List ServerState :=
  match mapGet st.sessions sessionId with
  | none => []
  | some session =>
      let st1 : ServerState := { st with sessions := mapDel st.sessions sessionId }
      st1 :: unlinkStates st1 (mapValues session.imagePaths)

/-- `runExpiredSessionCleanup()` (server.js 97-112): one sweeper run at
time `now` over a snapshot of the session ids. -/
def runExpiredSessionCleanup (now : Nat) (st : ServerState) : ServerState :=
  (st.sessions.map Prod.fst).foldl
    (fun acc sessionId =>
      match mapGet acc.sessions sessionId with
      | some session =>
          if session.expiresAt < now then cleanupSession acc sessionId else acc
      | none => acc)
    st

/-- POST /api/session/request (server.js 156-205): allocate a fresh
session keyed by `sessionId` (the generated uuid). -/
def createSession (cfg : Config) (now : Nat) (st : ServerState)
    (sessionId : String) : ServerState :=
  { st with
      sessions := mapSet st.sessions sessionId
        { status := SessionStatus.waiting_for_sender
          receiverLastSeen := now
          senderLastSeen := 0
          expiresAt := calculateExpiresAt cfg now
          createdAt := now
          imagePaths := []
          pendingImageIds := [] } }

/-- Result of the sender-connect endpoint. -/
inductive ConnectResult where
  | ok
  | notFound
  | conflict
deriving DecidableEq, Repr

/-- POST /api/session/:sessionId/connect (server.js 208-242). -/
def connectSender (cfg : Config) (now : Nat) (st : ServerState)
    (sessionId : String) : ConnectResult × ServerState :=
  match mapGet st.sessions sessionId with
  | none => (ConnectResult.notFound, st)
  | some session =>
      if session.status ≠ SessionStatus.waiting_for_sender
          ∧ session.status = SessionStatus.connected ∧ session.senderLastSeen > 0 then
        (ConnectResult.conflict, st)
      else
        (ConnectResult.ok,
          { st with
              sessions := mapSet st.sessions sessionId
                { session with
                    status := SessionStatus.connected
                    senderLastSeen := now
                    expiresAt := calculateExpiresAt cfg now } })

/-- The polling client (`req.query.client`, validated to be one of
these two values by server.js 253-255). -/
inductive ClientType where
  | receiver
  | sender
deriving DecidableEq, Repr

/-- The success payload of the status poll (server.js 287-294);
`photoCount` is an external statistics counter and is omitted. -/
structure PollResponse where
  sessionStatus : SessionStatus
  partnerConnected : Bool
  remainingTimeoutMs : Nat
  newImageIds : List String
deriving DecidableEq, Repr

/-- Result of the status-poll endpoint. -/
inductive PollResult where
  | ok (resp : PollResponse)
  | notFound
deriving DecidableEq, Repr

/-- The last-seen update and staleness transition of the poll handler
(server.js 263-278), applied to the polled session record. -/
def updateOnPoll (cfg : Config) (now : Nat) (clientType : ClientType)
    (session : Session) : Session :=
  match clientType with
  | ClientType.receiver =>
      let s1 : Session := { session with receiverLastSeen := now }
      if s1.status = SessionStatus.connected ∧ now > s1.senderLastSeen + cfg.clientTimeoutMs then
        { s1 with status := SessionStatus.sender_disconnected }
      else s1
  | ClientType.sender =>
      let s1 : Session := { session with senderLastSeen := now }
      if s1.status = SessionStatus.connected ∧ now > s1.receiverLastSeen + cfg.clientTimeoutMs then
        { s1 with status := SessionStatus.receiver_disconnected }
      else s1

/-- POST /api/session/:sessionId/status (server.js 245-321). -/
def pollStatus (cfg : Config) (now : Nat) (st : ServerState)
    (sessionId : String) (clientType : ClientType) : PollResult × ServerState :=
  match mapGet st.sessions sessionId with
  | none => (PollResult.notFound, st)
  | some session =>
      let session1 := updateOnPoll cfg now clientType session
      let st1 : ServerState := { st with sessions := mapSet st.sessions sessionId session1 }
      if session1.expiresAt < now then
        (PollResult.notFound, cleanupSession st1 sessionId)
      else
        let resp : PollResponse :=
          { sessionStatus := session1.status
            partnerConnected := decide (session1.status = SessionStatus.connected)
            remainingTimeoutMs := session1.expiresAt - now
            newImageIds := [] }
        match clientType with
        | ClientType.receiver =>
            if session1.pendingImageIds.length > 0 then
              (PollResult.ok { resp with newImageIds := session1.pendingImageIds },
                { st1 with
                    sessions := mapSet st1.sessions sessionId
                      { session1 with pendingImageIds := [] } })
            else (PollResult.ok resp, st1)
        | ClientType.sender => (PollResult.ok resp, st1)

/-- Result of the upload endpoint. `notFound` is the 400 for a missing
or unknown session id; `invalidState` the 400 for a non-connected
status; `receiverGone` the 400 that also deletes the session. -/
inductive UploadResult where
  | ok (imageId : String)
  | notFound
  | invalidState
  | receiverGone
deriving DecidableEq, Repr

/-- Prefix standing for `path.join(UPLOAD_DIR, ...)`. -/
def uploadDirPrefix : String := "uploads/"

/-- POST /upload (server.js 370-449). `imageId` is the freshly
generated `uuidv4()-originalFilename` identifier; the multipart read
and write are assumed to succeed (their failure leaves no session-map
change, server.js 441-448). -/
def uploadImage (cfg : Config) (now : Nat) (st : ServerState)
    (sessionId imageId : String) : UploadResult × ServerState :=
  match mapGet st.sessions sessionId with
  | none => (UploadResult.notFound, st)
  | some session =>
      if session.status ≠ SessionStatus.connected then
        (UploadResult.invalidState, st)
      else if now > session.receiverLastSeen + cfg.sessionTimeoutMs then
        let session1 : Session := { session with status := SessionStatus.receiver_disconnected }
        let st1 : ServerState := { st with sessions := mapSet st.sessions sessionId session1 }
        (UploadResult.receiverGone, cleanupSession st1 sessionId)
      else
        let session1 : Session := { session with expiresAt := calculateExpiresAt cfg now }
        let imagePath := uploadDirPrefix ++ imageId
        let session2 : Session :=
          { session1 with
              imagePaths := mapSet session1.imagePaths imageId imagePath
              pendingImageIds := session1.pendingImageIds ++ [imageId] }
        (UploadResult.ok imageId,
          { sessions := mapSet st.sessions sessionId session2
            files := st.files ++ [imagePath] })

/-- Result of the image-fetch endpoint. All three failure cases of
server.js (unknown session, unknown image id, missing file) answer
404. -/
inductive FetchResult where
  | ok (imagePath : String)
  | notFound
deriving DecidableEq, Repr

/-- GET /image/:sessionId/:imageId (server.js 453-531), with the
`process.nextTick` cleanup (unlink the file, then remove the
`imagePaths` entry if the session still exists) run to completion. -/
def fetchImage (st : ServerState) (sessionId imageId : String) :
    FetchResult × ServerState :=
  match mapGet st.sessions sessionId with
  | none => (FetchResult.notFound, st)
  | some session =>
      match mapGet session.imagePaths imageId with
      | none => (FetchResult.notFound, st)
      | some imagePath =>
          if st.files.contains imagePath then
            let files1 := st.files.filter (fun q => decide (q ≠ imagePath))
            let sessions1 :=
              match mapGet st.sessions sessionId with
              | some current =>
                  match mapGet current.imagePaths imageId with
                  | some _ =>
                      mapSet st.sessions sessionId
                        { current with imagePaths := mapDel current.imagePaths imageId }
                  | none => st.sessions
              | none => st.sessions
            (FetchResult.ok imagePath, { sessions := sessions1, files := files1 })
          else (FetchResult.notFound, st)

/-- Projection: the `expiresAt` of the session stored under `sessionId`. -/
def sessionExpiresAt (st : ServerState) (sessionId : String) : Option Nat :=
  (mapGet st.sessions sessionId).map Session.expiresAt

/-- Projection: the `status` of the session stored under `sessionId`. -/
def sessionStatusOf (st : ServerState) (sessionId : String) : Option SessionStatus :=
  (mapGet st.sessions sessionId).map Session.status

/-- Projection: the `pendingImageIds` of the session stored under `sessionId`. -/
def pendingOf (st : ServerState) (sessionId : String) : Option (List String) :=
  (mapGet st.sessions sessionId).map Session.pendingImageIds

/-- Projection: the `newImageIds` carried by a successful poll result. -/
def pollNewImageIds : PollResult → Option (List String)
  | PollResult.ok resp => some resp.newImageIds
  | PollResult.notFound => none

/-- Concrete session id used in witnesses and counterexamples. -/
def sidA : String := "sessA"

/-- Second concrete session id. -/
def sidB : String := "sessB"

/-- Concrete image id. -/
def imgA : String := "imgA"

/-- Second concrete image id. -/
def imgB : String := "imgB"

/-- Third concrete image id. -/
def imgC : String := "imgC"

/-- Path of `imgA` in the upload directory. -/
def pathA : String := uploadDirPrefix ++ imgA

/-- Path of `imgB` in the upload directory. -/
def pathB : String := uploadDirPrefix ++ imgB

/-- The server state at startup: no sessions, no stored files. -/
def emptyState : ServerState := { sessions := [], files := [] }

/-- Builder for concrete session records (createdAt fixed to 0). -/
def mkSession (status : SessionStatus) (rls sls exp : Nat)
    (paths : List (String × String)) (pending : List String) : Session :=
  { status := status, receiverLastSeen := rls, senderLastSeen := sls,
    expiresAt := exp, createdAt := 0, imagePaths := paths,
    pendingImageIds := pending }

/-- Witness state for at-most-once delivery: one connected session
holding one undelivered image. -/
def sW1 : Session := mkSession SessionStatus.connected 0 0 1000000 [(imgA, pathA)] []

/-- Server state around `sW1`. -/
def stW1 : ServerState := { sessions := [(sidA, sW1)], files := [pathA] }

/-- A connected session whose absolute deadline (5) has passed at
`now = 10` but which has not been swept. -/
def sC2 : Session := mkSession SessionStatus.connected 10 1 5 [] []

/-- Server state around `sC2`. -/
def stC2 : ServerState := { sessions := [(sidA, sC2)], files := [] }

/-- A `waiting_for_sender` session whose deadline (5) has passed. -/
def sC2b : Session := mkSession SessionStatus.waiting_for_sender 0 0 5 [] []

/-- Server state around `sC2b`. -/
def stC2b : ServerState := { sessions := [(sidB, sC2b)], files := [] }

/-- A connected session past its deadline that still holds an image. -/
def sC2c : Session := mkSession SessionStatus.connected 10 1 5 [(imgA, pathA)] []

/-- Server state around `sC2c`. -/
def stC2c : ServerState := { sessions := [(sidA, sC2c)], files := [pathA] }

/-- A freshly created session (created at time 0). -/
def stC3 : ServerState := createSession defaultConfig 0 emptyState sidA

/-- A connected session with a live sender (last seen at 2) and a
fresh receiver (last seen at 5), on which upload and poll succeed at
`now = 5`. -/
def sW3 : Session := mkSession SessionStatus.connected 5 2 100000 [] []

/-- Server state around `sW3`. -/
def stW3 : ServerState := { sessions := [(sidA, sW3)], files := [] }

/-- A `waiting_for_sender` session, on which connect succeeds. -/
def sW3c : Session := mkSession SessionStatus.waiting_for_sender 5 0 100000 [] []

/-- Server state around `sW3c`. -/
def stW3c : ServerState := { sessions := [(sidA, sW3c)], files := [] }

/-- The poll response produced by a receiver poll of `stW3` at time 5. -/
def respW3 : PollResponse :=
  { sessionStatus := SessionStatus.connected, partnerConnected := true,
    remainingTimeoutMs := 99995, newImageIds := [] }

/-- An expired session owning one image file, for the cleanup trace. -/
def sC4 : Session := mkSession SessionStatus.connected 0 0 5 [(imgA, pathA)] []

/-- Server state around `sC4`: its backing file is on disk. -/
def stC4 : ServerState := { sessions := [(sidA, sC4)], files := [pathA] }

/-- Another session owning one image file. -/
def sW4 : Session := mkSession SessionStatus.waiting_for_sender 0 0 5 [(imgB, pathB)] [imgB]

/-- Server state around `sW4`; an unrelated file `pathA` also exists. -/
def stW4 : ServerState := { sessions := [(sidB, sW4)], files := [pathB, pathA] }

/-- A connected session whose receiver was last seen at time 0. -/
def sC5 : Session := mkSession SessionStatus.connected 0 0 1000000 [] []

/-- Server state around `sC5`. -/
def stC5 : ServerState := { sessions := [(sidA, sC5)], files := [] }

/-- A connected session whose receiver has been silent long enough to
trip the upload staleness check. -/
def sW5 : Session := mkSession SessionStatus.connected 0 0 1000000 [] []

/-- Server state around `sW5`. -/
def stW5 : ServerState := { sessions := [(sidA, sW5)], files := [] }

/-- A session marked `receiver_disconnected` (receiver stale since 0,
sender alive at 100). -/
def sC6 : Session := mkSession SessionStatus.receiver_disconnected 0 100 1000000 [] []

/-- Server state around `sC6`. -/
def stC6 : ServerState := { sessions := [(sidA, sC6)], files := [] }

/-- A session marked `sender_disconnected`. -/
def sW6 : Session := mkSession SessionStatus.sender_disconnected 0 0 1000000 [] []

/-- Server state around `sW6`. -/
def stW6 : ServerState := { sessions := [(sidA, sW6)], files := [] }

/-- A connected session with two images queued for the receiver. -/
def sW7 : Session :=
  mkSession SessionStatus.connected 10 10 1000000 [(imgA, pathA), (imgB, pathB)] [imgA, imgB]

/-- Server state around `sW7`. -/
def stW7 : ServerState := { sessions := [(sidA, sW7)], files := [pathA, pathB] }

/-- The poll response produced by a receiver poll of `stW7` at time 10. -/
def respW7 : PollResponse :=
  { sessionStatus := SessionStatus.connected, partnerConnected := true,
    remainingTimeoutMs := 999990, newImageIds := [imgA, imgB] }

/-- A connected session with a live sender (last seen at 7). -/
def sW8 : Session := mkSession SessionStatus.connected 5 7 1000000 [] []

/-- Server state around `sW8`. -/
def stW8 : ServerState := { sessions := [(sidA, sW8)], files := [] }

/-- A `receiver_disconnected` session (receiver stale since 0). -/
def sW9 : Session := mkSession SessionStatus.receiver_disconnected 0 30 100000 [] []

/-- Server state around `sW9`. -/
def stW9 : ServerState := { sessions := [(sidA, sW9)], files := [] }

/-- A `receiver_disconnected` session with one pending image. -/
def sW10 : Session :=
  mkSession SessionStatus.receiver_disconnected 0 0 120000 [(imgA, pathA)] [imgA]

/-- Server state around `sW10`. -/
def stW10 : ServerState := { sessions := [(sidA, sW10)], files := [pathA] }

theorem mapGet_mapSet_self {α β : Type} [DecidableEq α] (m : List (α × β)) (k : α) (v : β) :
    mapGet (mapSet m k v) k = some v := by
  induction m with
  | nil => simp [mapSet, mapGet]
  | cons kv rest ih =>
      obtain ⟨k1, v1⟩ := kv
      by_cases h : k1 = k
      · simp [mapSet, mapGet, h]
      · simp [mapSet, mapGet, h, ih]

theorem mapGet_mapDel_self {α β : Type} [DecidableEq α] (m : List (α × β)) (k : α) :
    mapGet (mapDel m k) k = none := by
  induction m with
  | nil => rfl
  | cons kv rest ih =>
      obtain ⟨k1, v1⟩ := kv
      by_cases h : k1 = k
      · simpa [mapDel, h] using ih
      · simpa [mapDel, mapGet, h] using ih

theorem mapGet_cleanupSession_self (st : ServerState) (sessionId : String) :
    mapGet (cleanupSession st sessionId).sessions sessionId = none := by
  unfold cleanupSession
  cases h : mapGet st.sessions sessionId with
  | none => exact h
  | some s => exact mapGet_mapDel_self st.sessions sessionId

theorem updateOnPoll_expiresAt (cfg : Config) (now : Nat) (ct : ClientType) (s : Session) :
    (updateOnPoll cfg now ct s).expiresAt = s.expiresAt := by
  cases ct <;> simp only [updateOnPoll] <;> split <;> rfl

theorem updateOnPoll_pendingImageIds (cfg : Config) (now : Nat) (ct : ClientType) (s : Session) :
    (updateOnPoll cfg now ct s).pendingImageIds = s.pendingImageIds := by
  cases ct <;> simp only [updateOnPoll] <;> split <;> rfl

theorem updateOnPoll_imagePaths (cfg : Config) (now : Nat) (ct : ClientType) (s : Session) :
    (updateOnPoll cfg now ct s).imagePaths = s.imagePaths := by
  cases ct <;> simp only [updateOnPoll] <;> split <;> rfl

theorem updateOnPoll_status_of_ne_connected (cfg : Config) (now : Nat) (ct : ClientType)
    (s : Session) (h : s.status ≠ SessionStatus.connected) :
    (updateOnPoll cfg now ct s).status = s.status := by
  cases ct <;> simp only [updateOnPoll] <;> split <;> simp_all

theorem mem_of_mem_unlinkAll (paths : List String) (files : List String) (q : String)
    (h : q ∈ unlinkAll files paths) : q ∈ files := by
  induction paths generalizing files with
  | nil => exact h
  | cons p rest ih =>
      have h1 : q ∈ List.filter (fun x => decide (x ≠ p)) files :=
        ih (List.filter (fun x => decide (x ≠ p)) files) h
      exact List.mem_of_mem_filter h1

theorem not_mem_unlinkAll (paths : List String) (files : List String) (p : String)
    (hp : p ∈ paths) : p ∉ unlinkAll files paths := by
  induction paths generalizing files with
  | nil => cases hp
  | cons a rest ih =>
      intro hmem
      rcases List.mem_cons.mp hp with heq | htail
      · subst heq
        have h1 : p ∈ List.filter (fun x => decide (x ≠ p)) files :=
          mem_of_mem_unlinkAll rest _ p hmem
        have h2 := List.of_mem_filter h1
        simp at h2
      · exact ih _ htail hmem

theorem sessions_of_mem_unlinkStates (paths : List String) (st : ServerState)
    (s2 : ServerState) (h : s2 ∈ unlinkStates st paths) : s2.sessions = st.sessions := by
  induction paths generalizing st with
  | nil => cases h
  | cons p rest ih =>
      rcases List.mem_cons.mp h with heq | htail
      · subst heq; rfl
      · exact ih { st with files := st.files.filter (fun q => decide (q ≠ p)) } htail

theorem unlinkStates_getLastD (paths : List String) (st : ServerState) :
    (unlinkStates st paths).getLastD st = { st with files := unlinkAll st.files paths } := by
  induction paths generalizing st with
  | nil => rfl
  | cons p rest ih =>
      simp only [unlinkStates, List.getLastD_cons]
      exact ih { st with files := st.files.filter (fun q => decide (q ≠ p)) }

theorem poll_receiver_drain_aux (cfg : Config) (now : Nat) (st : ServerState)
    (sessionId : String) (s : Session) (resp : PollResponse) (st2 : ServerState)
    (h : mapGet st.sessions sessionId = some s)
    (hp : pollStatus cfg now st sessionId ClientType.receiver = (PollResult.ok resp, st2)) :
    resp.newImageIds = s.pendingImageIds ∧ pendingOf st2 sessionId = some [] := by
  unfold pollStatus at hp
  rw [h] at hp
  dsimp only at hp
  split at hp
  · simp at hp
  · split at hp
    · simp only [Prod.mk.injEq, PollResult.ok.injEq] at hp
      obtain ⟨h1, h2⟩ := hp
      subst h1
      subst h2
      refine ⟨?_, ?_⟩
      · exact updateOnPoll_pendingImageIds cfg now ClientType.receiver s
      · simp [pendingOf, mapGet_mapSet_self]
    · rename_i hlen
      have hnil : (updateOnPoll cfg now ClientType.receiver s).pendingImageIds = [] := by
        have := Nat.eq_zero_of_not_pos hlen
        exact List.length_eq_zero.mp this
      simp only [Prod.mk.injEq, PollResult.ok.injEq] at hp
      obtain ⟨h1, h2⟩ := hp
      subst h1
      subst h2
      refine ⟨?_, ?_⟩
      · rw [← updateOnPoll_pendingImageIds cfg now ClientType.receiver s, hnil]
      · simp [pendingOf, mapGet_mapSet_self, hnil]

theorem connect_ok_state (cfg : Config) (now : Nat) (st : ServerState)
    (sessionId : String) (s : Session) (stc : ServerState)
    (h : mapGet st.sessions sessionId = some s)
    (hc : connectSender cfg now st sessionId = (ConnectResult.ok, stc)) :
    stc = { st with
              sessions := mapSet st.sessions sessionId
                { s with status := SessionStatus.connected, senderLastSeen := now,
                         expiresAt := calculateExpiresAt cfg now } } := by
  unfold connectSender at hc
  rw [h] at hc
  dsimp only at hc
  split at hc
  · simp at hc
  · simp only [Prod.mk.injEq] at hc
    exact hc.2.symm

theorem upload_ok_state (cfg : Config) (now : Nat) (st : ServerState)
    (sessionId imageId : String) (s : Session) (stu : ServerState)
    (h : mapGet st.sessions sessionId = some s)
    (hu : uploadImage cfg now st sessionId imageId = (UploadResult.ok imageId, stu)) :
    stu = { sessions := mapSet st.sessions sessionId
              { s with expiresAt := calculateExpiresAt cfg now,
                       imagePaths := mapSet s.imagePaths imageId (uploadDirPrefix ++ imageId),
                       pendingImageIds := s.pendingImageIds ++ [imageId] }
            files := st.files ++ [uploadDirPrefix ++ imageId] } := by
  unfold uploadImage at hu
  rw [h] at hu
  dsimp only at hu
  split at hu
  · simp at hu
  · split at hu
    · simp at hu
    · simp only [Prod.mk.injEq, UploadResult.ok.injEq] at hu
      exact hu.2.symm

theorem poll_ok_expiresAt (cfg : Config) (now : Nat) (st : ServerState)
    (sessionId : String) (ct : ClientType) (s : Session) (resp : PollResponse)
    (stp : ServerState)
    (h : mapGet st.sessions sessionId = some s)
    (hp : pollStatus cfg now st sessionId ct = (PollResult.ok resp, stp)) :
    sessionExpiresAt stp sessionId = some s.expiresAt := by
  cases ct with
  | receiver =>
      unfold pollStatus at hp
      rw [h] at hp
      dsimp only at hp
      split at hp
      · simp at hp
      · split at hp
        · simp only [Prod.mk.injEq, PollResult.ok.injEq] at hp
          obtain ⟨h1, h2⟩ := hp
          subst h2
          simp [sessionExpiresAt, mapGet_mapSet_self, updateOnPoll_expiresAt]
        · simp only [Prod.mk.injEq, PollResult.ok.injEq] at hp
          obtain ⟨h1, h2⟩ := hp
          subst h2
          simp [sessionExpiresAt, mapGet_mapSet_self, updateOnPoll_expiresAt]
  | sender =>
      unfold pollStatus at hp
      rw [h] at hp
      dsimp only at hp
      split at hp
      · simp at hp
      · simp only [Prod.mk.injEq, PollResult.ok.injEq] at hp
        obtain ⟨h1, h2⟩ := hp
        subst h2
        simp [sessionExpiresAt, mapGet_mapSet_self, updateOnPoll_expiresAt]

/-- C1: At-most-once image delivery — once `fetchImage` succeeds for a
session id and image id, the deferred cleanup has deleted the backing
file and removed the entry from the session's image map, so an
immediately following `fetchImage` with the same session id and image
id returns `NotFound` (and leaves the state unchanged). -/
theorem fetchImage_at_most_once (st : ServerState) (sessionId imageId imagePath : String)
    (st2 : ServerState)
    (h : fetchImage st sessionId imageId = (FetchResult.ok imagePath, st2)) :
    fetchImage st2 sessionId imageId = (FetchResult.notFound, st2) := by
  unfold fetchImage at h
  cases hs : mapGet st.sessions sessionId with
  | none => rw [hs] at h; simp at h
  | some session =>
      rw [hs] at h
      dsimp only at h
      cases hi : mapGet session.imagePaths imageId with
      | none => rw [hi] at h; simp at h
      | some p =>
          rw [hi] at h
          dsimp only at h
          split at h
          · simp only [Prod.mk.injEq, FetchResult.ok.injEq] at h
            obtain ⟨h1, h2⟩ := h
            subst h2
            simp [fetchImage, mapGet_mapSet_self, mapGet_mapDel_self]
          · simp at h

/-- Witness for C1: in `stW1`, fetching `imgA` once succeeds and the
second fetch of the same image returns `NotFound` unchanged. -/
theorem fetchImage_at_most_once_witness :
    fetchImage (fetchImage stW1 sidA imgA).2 sidA imgA
      = (FetchResult.notFound, (fetchImage stW1 sidA imgA).2) := by
  exact fetchImage_at_most_once stW1 sidA imgA pathA ((fetchImage stW1 sidA imgA).2)
    (by decide)

/-- C2 counterexample: operations other than the status poll perform no
deadline check. In `stC2`/`stC2b`/`stC2c` the stored deadline is 5 and
the operations run at time 10, yet `uploadImage` accepts the upload,
`connectSender` succeeds, and `fetchImage` serves the image — none of
them behaves as if the session did not exist. -/
theorem deadline_unchecked_cex :
    sessionExpiresAt stC2 sidA = some 5 ∧ 5 < 10 ∧
    (uploadImage defaultConfig 10 stC2 sidA imgA).1 = UploadResult.ok imgA ∧
    sessionExpiresAt stC2b sidB = some 5 ∧
    (connectSender defaultConfig 10 stC2b sidB).1 = ConnectResult.ok ∧
    sessionExpiresAt stC2c sidA = some 5 ∧
    (fetchImage stC2c sidA imgA).1 = FetchResult.ok pathA := by
  decide

/-- C2 (amended): only the status poll gives precedence to the
absolute deadline — polling a session whose `expiresAt` has passed but
which is still in the store answers `NotFound` and removes the session
record; `connectSender`, `uploadImage` and `fetchImage` perform no
deadline check at all. -/
theorem poll_expired_notFound (cfg : Config) (now : Nat) (st : ServerState)
    (sessionId : String) (ct : ClientType) (s : Session)
    (h : mapGet st.sessions sessionId = some s) (hexp : s.expiresAt < now) :
    (pollStatus cfg now st sessionId ct).1 = PollResult.notFound ∧
    mapGet (pollStatus cfg now st sessionId ct).2.sessions sessionId = none := by
  unfold pollStatus
  rw [h]
  dsimp only
  have hx : (updateOnPoll cfg now ct s).expiresAt < now := by
    rw [updateOnPoll_expiresAt]; exact hexp
  rw [if_pos hx]
  exact ⟨rfl, mapGet_cleanupSession_self _ _⟩

/-- Witness for the amended C2: a sender poll of the expired session
`sC2` at time 10 answers `NotFound` and sweeps the record. -/
theorem poll_expired_notFound_witness :
    (pollStatus defaultConfig 10 stC2 sidA ClientType.sender).1 = PollResult.notFound ∧
    mapGet (pollStatus defaultConfig 10 stC2 sidA ClientType.sender).2.sessions sidA
      = none := by
  exact poll_expired_notFound defaultConfig 10 stC2 sidA ClientType.sender sC2
    (by decide) (by decide)

/-- C3 counterexample: a successful status poll does not extend the
deadline. The session of `stC3` is created at time 0 with deadline
120000; a receiver poll at time 100000 succeeds, yet afterwards
`expiresAt` is still 120000, which is smaller than the poll time plus
the configured session timeout (220000). -/
theorem poll_does_not_extend_deadline_cex :
    pollNewImageIds (pollStatus defaultConfig 100000 stC3 sidA ClientType.receiver).1
      = some [] ∧
    sessionExpiresAt (pollStatus defaultConfig 100000 stC3 sidA ClientType.receiver).2 sidA
      = some 120000 ∧
    120000 < 100000 + defaultConfig.sessionTimeoutMs := by
  decide

/-- C3 (amended): `expiresAt` is reset to `now` plus the configured
session timeout on every successful connect and every accepted upload,
but a successful status poll leaves `expiresAt` unchanged — so the
invariant "expiresAt >= time of the last state-mutating event + session
timeout" holds after connects and uploads only, not after polls. -/
theorem expiry_extension_on_connect_upload (cfg : Config) (now : Nat) (st : ServerState)
    (sessionId imageId : String) (ct : ClientType) (s : Session)
    (h : mapGet st.sessions sessionId = some s) :
    (∀ stc, connectSender cfg now st sessionId = (ConnectResult.ok, stc) →
        sessionExpiresAt stc sessionId = some (now + cfg.sessionTimeoutMs)) ∧
    (∀ stu, uploadImage cfg now st sessionId imageId = (UploadResult.ok imageId, stu) →
        sessionExpiresAt stu sessionId = some (now + cfg.sessionTimeoutMs)) ∧
    (∀ resp stp, pollStatus cfg now st sessionId ct = (PollResult.ok resp, stp) →
        sessionExpiresAt stp sessionId = sessionExpiresAt st sessionId) := by
  refine ⟨?_, ?_, ?_⟩
  · intro stc hc
    have h2 := connect_ok_state cfg now st sessionId s stc h hc
    subst h2
    simp [sessionExpiresAt, mapGet_mapSet_self, calculateExpiresAt]
  · intro stu hu
    have h2 := upload_ok_state cfg now st sessionId imageId s stu h hu
    subst h2
    simp [sessionExpiresAt, mapGet_mapSet_self, calculateExpiresAt]
  · intro resp stp hp
    have h3 := poll_ok_expiresAt cfg now st sessionId ct s resp stp h hp
    rw [h3]
    simp [sessionExpiresAt, h]

/-- Witness for the amended C3, at two reachable states: connecting to
the `waiting_for_sender` session `stW3c` at time 5 sets its deadline
to 5 + 120000; on the connected session `stW3` (live sender last seen
at 2), an accepted upload at time 5 sets the deadline to 5 + 120000
while a successful receiver poll leaves it unchanged. -/
theorem expiry_extension_on_connect_upload_witness :
    sessionExpiresAt (connectSender defaultConfig 5 stW3c sidA).2 sidA
      = some (5 + defaultConfig.sessionTimeoutMs) ∧
    sessionExpiresAt (uploadImage defaultConfig 5 stW3 sidA imgA).2 sidA
      = some (5 + defaultConfig.sessionTimeoutMs) ∧
    sessionExpiresAt (pollStatus defaultConfig 5 stW3 sidA ClientType.receiver).2 sidA
      = sessionExpiresAt stW3 sidA := by
  have hconn := expiry_extension_on_connect_upload defaultConfig 5 stW3c sidA imgA
    ClientType.receiver sW3c (by decide)
  have hrest := expiry_extension_on_connect_upload defaultConfig 5 stW3 sidA imgA
    ClientType.receiver sW3 (by decide)
  exact ⟨hconn.1 ((connectSender defaultConfig 5 stW3c sidA).2) (by decide),
    hrest.2.1 ((uploadImage defaultConfig 5 stW3 sidA imgA).2) (by decide),
    hrest.2.2 respW3 ((pollStatus defaultConfig 5 stW3 sidA ClientType.receiver).2)
      (by decide)⟩

/-- C4 counterexample: `cleanupSession` removes the in-memory session
record first and deletes the files afterwards, so the file deletion is
neither before nor inseparable from the record removal. In `stC4` the
very first observable state of the cleanup already has the record gone
while the backing file `pathA` still exists. -/
theorem cleanup_record_removed_first_cex :
    ((cleanupTrace stC4 sidA).head?.map (fun s2 => (mapGet s2.sessions sidA, s2.files)))
      = some (none, [pathA]) := by
  decide

/-- C4 (amended): whenever a session is destroyed, `cleanupSession`
first removes the in-memory record (every intermediate state already
has the record gone) and then deletes every file referenced by its
image map, tolerating files already absent; after completion the
record is gone and none of the session's files remain. -/
theorem cleanupSession_removes_record_then_files (st : ServerState) (sessionId : String)
    (s : Session) (h : mapGet st.sessions sessionId = some s) :
    mapGet (cleanupSession st sessionId).sessions sessionId = none ∧
    (∀ p, p ∈ mapValues s.imagePaths → p ∉ (cleanupSession st sessionId).files) ∧
    (∀ st2, st2 ∈ cleanupTrace st sessionId → mapGet st2.sessions sessionId = none) ∧
    (cleanupTrace st sessionId).getLastD st = cleanupSession st sessionId := by
  refine ⟨mapGet_cleanupSession_self st sessionId, ?_, ?_, ?_⟩
  · intro p hp
    unfold cleanupSession
    rw [h]
    dsimp only
    exact not_mem_unlinkAll _ _ _ hp
  · intro st2 hmem
    unfold cleanupTrace at hmem
    rw [h] at hmem
    dsimp only at hmem
    rcases List.mem_cons.mp hmem with heq | htail
    · subst heq
      exact mapGet_mapDel_self st.sessions sessionId
    · rw [sessions_of_mem_unlinkStates _ _ _ htail]
      exact mapGet_mapDel_self st.sessions sessionId
  · unfold cleanupTrace cleanupSession
    rw [h]
    dsimp only
    rw [List.getLastD_cons]
    exact unlinkStates_getLastD _ _

/-- Witness for the amended C4: cleaning up `stW4` removes the record
of `sidB` and its backing file `pathB`. -/
theorem cleanupSession_removes_record_then_files_witness :
    mapGet (cleanupSession stW4 sidB).sessions sidB = none ∧
    pathB ∉ (cleanupSession stW4 sidB).files := by
  have h := cleanupSession_removes_record_then_files stW4 sidB sW4 (by decide)
  exact ⟨h.1, h.2.1 pathB (by decide)⟩

/-- C5 counterexample: the upload staleness check compares against the
session timeout (120000 ms), not the per-client liveness threshold
(3000 ms). In `stC5` the receiver was last seen at 0 and the upload
happens at 5000 — past the liveness threshold — yet the upload is
accepted and the session survives as `connected`. -/
theorem upload_stale_receiver_threshold_cex :
    0 + defaultConfig.clientTimeoutMs < 5000 ∧
    (uploadImage defaultConfig 5000 stC5 sidA imgA).1 = UploadResult.ok imgA ∧
    sessionStatusOf (uploadImage defaultConfig 5000 stC5 sidA imgA).2 sidA
      = some SessionStatus.connected := by
  decide

/-- C5 (amended): an upload on a `connected` session is rejected with
proactive deletion of the session exactly when the receiver's
last-seen is older than the SESSION timeout (not the per-client
liveness threshold); an upload on a session already marked
`receiver_disconnected` is rejected as an invalid state without
deleting the session. -/
theorem upload_stale_receiver_rejection (cfg : Config) (now : Nat) (st : ServerState)
    (sessionId imageId : String) (s : Session)
    (h : mapGet st.sessions sessionId = some s) :
    (s.status = SessionStatus.connected → now > s.receiverLastSeen + cfg.sessionTimeoutMs →
      (uploadImage cfg now st sessionId imageId).1 = UploadResult.receiverGone ∧
      mapGet (uploadImage cfg now st sessionId imageId).2.sessions sessionId = none) ∧
    (s.status = SessionStatus.receiver_disconnected →
      uploadImage cfg now st sessionId imageId = (UploadResult.invalidState, st)) := by
  constructor
  · intro hconn hstale
    unfold uploadImage
    rw [h]
    dsimp only
    rw [if_neg (not_not_intro hconn)]
    rw [if_pos hstale]
    exact ⟨rfl, mapGet_cleanupSession_self _ _⟩
  · intro hrd
    unfold uploadImage
    rw [h]
    dsimp only
    rw [if_pos (by simp [hrd])]

/-- Witness for the amended C5: at time 130000 the receiver of `stW5`
(last seen at 0) is older than the session timeout, so the upload is
rejected and the session record is deleted. -/
theorem upload_stale_receiver_rejection_witness :
    (uploadImage defaultConfig 130000 stW5 sidA imgA).1 = UploadResult.receiverGone ∧
    mapGet (uploadImage defaultConfig 130000 stW5 sidA imgA).2.sessions sidA = none := by
  have h := upload_stale_receiver_rejection defaultConfig 130000 stW5 sidA imgA sW5 (by decide)
  exact h.1 (by decide) (by decide)

/-- C6 counterexample: in `stC6` the session is `receiver_disconnected`
(the receiver is the stale side, silent since 0), yet a `connectSender`
at time 5000 — an operation of the sender, the non-stale side, while
the receiver is still past the liveness threshold — succeeds and
restores the status to `connected` without any action by the
receiver. -/
theorem nonstale_connect_restores_cex :
    sessionStatusOf stC6 sidA = some SessionStatus.receiver_disconnected ∧
    0 + defaultConfig.clientTimeoutMs < 5000 ∧
    (connectSender defaultConfig 5000 stC6 sidA).1 = ConnectResult.ok ∧
    sessionStatusOf (connectSender defaultConfig 5000 stC6 sidA).2 sidA
      = some SessionStatus.connected := by
  decide

/-- C6 (amended): once a session is marked `sender_disconnected` or
`receiver_disconnected`, no status poll by either side changes that
status — only `connectSender` restores `connected`, and it is permitted
from both disconnected statuses, so from `receiver_disconnected` the
sender (the non-stale side) can restore `connected` on its own. -/
theorem staleness_poll_monotone (cfg : Config) (now : Nat) (st : ServerState)
    (sessionId : String) (s : Session)
    (h : mapGet st.sessions sessionId = some s)
    (hd : s.status = SessionStatus.sender_disconnected ∨
          s.status = SessionStatus.receiver_disconnected) :
    (∀ ct resp st2, pollStatus cfg now st sessionId ct = (PollResult.ok resp, st2) →
        sessionStatusOf st2 sessionId = some s.status ∧ resp.sessionStatus = s.status) ∧
    ((connectSender cfg now st sessionId).1 = ConnectResult.ok ∧
      sessionStatusOf (connectSender cfg now st sessionId).2 sessionId
        = some SessionStatus.connected) := by
  have hne : s.status ≠ SessionStatus.connected := by
    rcases hd with h1 | h1 <;> simp [h1]
  constructor
  · intro ct resp st2 hp
    have hstat := updateOnPoll_status_of_ne_connected cfg now ct s hne
    cases ct with
    | receiver =>
        unfold pollStatus at hp
        rw [h] at hp
        dsimp only at hp
        split at hp
        · simp at hp
        · split at hp
          · simp only [Prod.mk.injEq, PollResult.ok.injEq] at hp
            obtain ⟨h1, h2⟩ := hp
            subst h1
            subst h2
            exact ⟨by simp [sessionStatusOf, mapGet_mapSet_self, hstat], hstat⟩
          · simp only [Prod.mk.injEq, PollResult.ok.injEq] at hp
            obtain ⟨h1, h2⟩ := hp
            subst h1
            subst h2
            exact ⟨by simp [sessionStatusOf, mapGet_mapSet_self, hstat], hstat⟩
    | sender =>
        unfold pollStatus at hp
        rw [h] at hp
        dsimp only at hp
        split at hp
        · simp at hp
        · simp only [Prod.mk.injEq, PollResult.ok.injEq] at hp
          obtain ⟨h1, h2⟩ := hp
          subst h1
          subst h2
          exact ⟨by simp [sessionStatusOf, mapGet_mapSet_self, hstat], hstat⟩
  · unfold connectSender
    rw [h]
    dsimp only
    have hcond : ¬(s.status ≠ SessionStatus.waiting_for_sender
        ∧ s.status = SessionStatus.connected ∧ s.senderLastSeen > 0) := by
      intro hx
      exact hne hx.2.1
    rw [if_neg hcond]
    exact ⟨rfl, by simp [sessionStatusOf, mapGet_mapSet_self]⟩

/-- Witness for the amended C6: on the `sender_disconnected` session
`stW6`, a receiver poll leaves the status unchanged, while a sender
connect restores `connected`. -/
theorem staleness_poll_monotone_witness :
    sessionStatusOf (pollStatus defaultConfig 10 stW6 sidA ClientType.receiver).2 sidA
      = some SessionStatus.sender_disconnected ∧
    (connectSender defaultConfig 10 stW6 sidA).1 = ConnectResult.ok ∧
    sessionStatusOf (connectSender defaultConfig 10 stW6 sidA).2 sidA
      = some SessionStatus.connected := by
  have h := staleness_poll_monotone defaultConfig 10 stW6 sidA sW6 (by decide) (by decide)
  have h2 := h.1 ClientType.receiver
    { sessionStatus := SessionStatus.sender_disconnected, partnerConnected := false,
      remainingTimeoutMs := 999990, newImageIds := [] }
    ((pollStatus defaultConfig 10 stW6 sidA ClientType.receiver).2) (by decide)
  exact ⟨h2.1, h.2.1, h.2.2⟩

/-- C7: queue drain is exhaustive, exclusive and order-preserving — a
receiver poll returns exactly the stored `pendingImageIds` (the
identifiers uploaded since the previous receiver poll, in upload
order) and clears the queue; each accepted upload appends its image id
to the queue; and a second receiver poll with no intervening uploads
returns an empty `newImageIds`. -/
theorem queue_drain_exact (cfg : Config) (now now2 : Nat) (st : ServerState)
    (sessionId imageId : String) (s : Session)
    (h : mapGet st.sessions sessionId = some s) :
    (∀ resp st2,
        pollStatus cfg now st sessionId ClientType.receiver = (PollResult.ok resp, st2) →
        resp.newImageIds = s.pendingImageIds ∧ pendingOf st2 sessionId = some []) ∧
    (∀ st2, uploadImage cfg now st sessionId imageId = (UploadResult.ok imageId, st2) →
        pendingOf st2 sessionId = some (s.pendingImageIds ++ [imageId])) ∧
    (∀ resp st2 resp2 st3,
        pollStatus cfg now st sessionId ClientType.receiver = (PollResult.ok resp, st2) →
        pollStatus cfg now2 st2 sessionId ClientType.receiver = (PollResult.ok resp2, st3) →
        resp2.newImageIds = []) := by
  refine ⟨?_, ?_, ?_⟩
  · intro resp st2 hp
    exact poll_receiver_drain_aux cfg now st sessionId s resp st2 h hp
  · intro st2 hu
    have h2 := upload_ok_state cfg now st sessionId imageId s st2 h hu
    subst h2
    simp [pendingOf, mapGet_mapSet_self]
  · intro resp st2 resp2 st3 hp1 hp2
    have hd1 := poll_receiver_drain_aux cfg now st sessionId s resp st2 h hp1
    have hpend := hd1.2
    unfold pendingOf at hpend
    cases hg : mapGet st2.sessions sessionId with
    | none => rw [hg] at hpend; simp at hpend
    | some s2 =>
        rw [hg] at hpend
        simp at hpend
        have hd2 := poll_receiver_drain_aux cfg now2 st2 sessionId s2 resp2 st3 hg hp2
        rw [hd2.1, hpend]

/-- Witness for C7: draining `stW7` at time 10 returns `[imgA, imgB]`
and empties the queue; an accepted upload of `imgC` instead appends it
to the queue. -/
theorem queue_drain_exact_witness :
    (pollStatus defaultConfig 10 stW7 sidA ClientType.receiver).1 = PollResult.ok respW7 ∧
    respW7.newImageIds = [imgA, imgB] ∧
    pendingOf (pollStatus defaultConfig 10 stW7 sidA ClientType.receiver).2 sidA
      = some [] ∧
    pendingOf (uploadImage defaultConfig 10 stW7 sidA imgC).2 sidA
      = some [imgA, imgB, imgC] := by
  have h := queue_drain_exact defaultConfig 10 10 stW7 sidA imgC sW7 (by decide)
  refine ⟨by decide, ?_, ?_, ?_⟩
  · exact (h.1 respW7 ((pollStatus defaultConfig 10 stW7 sidA ClientType.receiver).2)
      (by decide)).1
  · exact (h.1 respW7 ((pollStatus defaultConfig 10 stW7 sidA ClientType.receiver).2)
      (by decide)).2
  · exact h.2.1 ((uploadImage defaultConfig 10 stW7 sidA imgC).2) (by decide)

/-- C8: duplicate-connect atomicity — `connectSender` on a session in
status `connected` with a live sender (`senderLastSeen > 0`) answers
`Conflict` and returns the whole server state unchanged, so every
field of the session is untouched. -/
theorem duplicate_connect_conflict (cfg : Config) (now : Nat) (st : ServerState)
    (sessionId : String) (s : Session) (h : mapGet st.sessions sessionId = some s)
    (hc : s.status = SessionStatus.connected) (hl : s.senderLastSeen > 0) :
    connectSender cfg now st sessionId = (ConnectResult.conflict, st) := by
  unfold connectSender
  rw [h]
  dsimp only
  rw [if_pos ⟨by simp [hc], hc, hl⟩]

/-- Witness for C8: connecting to `stW8` (connected, sender last seen
at 7) answers `Conflict` and leaves the state unchanged. -/
theorem duplicate_connect_conflict_witness :
    connectSender defaultConfig 50 stW8 sidA = (ConnectResult.conflict, stW8) := by
  exact duplicate_connect_conflict defaultConfig 50 stW8 sidA sW8
    (by decide) (by decide) (by decide)

/-- C9: `connectSender` succeeds on any existing session that is not
connected-with-live-sender — in particular from `receiver_disconnected`
and `sender_disconnected`, and for any `receiverLastSeen` (even a stale
receiver): the status becomes `connected`, `senderLastSeen` becomes
`now`, and `expiresAt` is reset to `now` plus the session timeout. -/
theorem connect_succeeds_without_live_sender (cfg : Config) (now : Nat) (st : ServerState)
    (sessionId : String) (s : Session) (h : mapGet st.sessions sessionId = some s)
    (hn : ¬(s.status = SessionStatus.connected ∧ s.senderLastSeen > 0)) :
    (connectSender cfg now st sessionId).1 = ConnectResult.ok ∧
    mapGet (connectSender cfg now st sessionId).2.sessions sessionId =
      some { s with status := SessionStatus.connected, senderLastSeen := now,
                    expiresAt := now + cfg.sessionTimeoutMs } := by
  unfold connectSender
  rw [h]
  dsimp only
  have hcond : ¬(s.status ≠ SessionStatus.waiting_for_sender
      ∧ s.status = SessionStatus.connected ∧ s.senderLastSeen > 0) := by
    intro hx
    exact hn ⟨hx.2.1, hx.2.2⟩
  rw [if_neg hcond]
  exact ⟨rfl, by simp [mapGet_mapSet_self, calculateExpiresAt]⟩

/-- Witness for C9: connecting to the `receiver_disconnected` session
`stW9` (receiver stale since 0) at time 5000 succeeds and rewrites the
session record as specified. -/
theorem connect_succeeds_without_live_sender_witness :
    (connectSender defaultConfig 5000 stW9 sidA).1 = ConnectResult.ok ∧
    mapGet (connectSender defaultConfig 5000 stW9 sidA).2.sessions sidA =
      some { sW9 with status := SessionStatus.connected, senderLastSeen := 5000,
                      expiresAt := 5000 + defaultConfig.sessionTimeoutMs } := by
  exact connect_succeeds_without_live_sender defaultConfig 5000 stW9 sidA sW9
    (by decide) (by decide)

/-- C10: a receiver poll on an existing session whose deadline has not
passed returns the entire pending image queue and clears it, whatever
the session's status field is (the status plays no role in the drain). -/
theorem receiver_poll_drains_any_status (cfg : Config) (now : Nat) (st : ServerState)
    (sessionId : String) (s : Session) (h : mapGet st.sessions sessionId = some s)
    (hexp : ¬ s.expiresAt < now) :
    pollNewImageIds (pollStatus cfg now st sessionId ClientType.receiver).1
      = some s.pendingImageIds ∧
    pendingOf (pollStatus cfg now st sessionId ClientType.receiver).2 sessionId
      = some [] := by
  unfold pollStatus
  rw [h]
  dsimp only
  have hx : ¬ (updateOnPoll cfg now ClientType.receiver s).expiresAt < now := by
    rw [updateOnPoll_expiresAt]; exact hexp
  rw [if_neg hx]
  by_cases hlen : (updateOnPoll cfg now ClientType.receiver s).pendingImageIds.length > 0
  · rw [if_pos hlen]
    constructor
    · simp [pollNewImageIds, updateOnPoll_pendingImageIds]
    · simp [pendingOf, mapGet_mapSet_self]
  · rw [if_neg hlen]
    have hnil : (updateOnPoll cfg now ClientType.receiver s).pendingImageIds = [] :=
      List.length_eq_zero.mp (Nat.eq_zero_of_not_pos hlen)
    have hs2 : s.pendingImageIds = [] := by
      rw [← updateOnPoll_pendingImageIds cfg now ClientType.receiver s]
      exact hnil
    constructor
    · simp [pollNewImageIds, hs2]
    · simp [pendingOf, mapGet_mapSet_self, hnil]

/-- Witness for C10: a receiver poll of the `receiver_disconnected`
session `stW10` at time 10 still returns its pending image `imgA` and
clears the queue. -/
theorem receiver_poll_drains_any_status_witness :
    pollNewImageIds (pollStatus defaultConfig 10 stW10 sidA ClientType.receiver).1
      = some [imgA] ∧
    pendingOf (pollStatus defaultConfig 10 stW10 sidA ClientType.receiver).2 sidA
      = some [] := by
  exact receiver_poll_drains_any_status defaultConfig 10 stW10 sidA sW10
    (by decide) (by decide)
